import Mathlib

/-!
# Verification of the proxy forwarding handlers

This file embeds the request-forwarding logic of the repository's Azure
Functions proxy.  The repository contains three variants of the handler:

* `proxyHandlerV1` — the first handler in `src/api/proxy/index.js`
  (sample response when the backend base URL is unset, fixed outbound
  headers, status 500 on fetch failure);
* `proxyHandlerV2` — the second handler in `src/api/proxy/index.js`
  (mandatory configuration checks, forwarding of all inbound headers
  except `host`, status 502 on fetch failure);
* `proxyHandlerTS` — the TypeScript handler in `src/unnamed/part_000`
  (no configuration checks, fixed outbound headers, status 500 on
  fetch failure).

The outbound HTTP call (`fetch`) is modelled as an oracle
`Backend : OutboundRequest → Except JsError UpstreamResponse`; an
`Except.error` covers any throw while establishing the connection,
completing the exchange or reading the upstream response.  Each handler
returns a `Trace` recording the outbound request it issued (if any)
together with its result; `HandlerResult.thrown` models an exception
propagating out of the handler (the `await request.text()` calls sit
outside the `try` blocks in all three variants).

`URLSearchParams.toString()` (used by all variants to serialize
`request.query`) is embedded as `queryToString`: each key and value is
serialized in `application/x-www-form-urlencoded` form (UTF-8 bytes,
`' '` as `'+'`, unreserved bytes verbatim, every other byte
percent-encoded) and the pairs are joined as `k=v&k2=v2`.  The decoder
`decodeQuery` is the spec-side inverse used to state the lossless
round-trip property.
-/

set_option maxRecDepth 4096

deriving instance DecidableEq for Except

namespace Proxy

/-! ## Percent-encoding (application/x-www-form-urlencoded), as performed
by `new URLSearchParams(request.query).toString()` -/

/-- Uppercase hexadecimal digit for `n < 16`. -/
def hexDigit (n : Nat) : Char :=
  if n < 10 then Char.ofNat (48 + n) else Char.ofNat (55 + n)

/-- Numeric value of a hexadecimal digit character. -/
def hexVal (c : Char) : Option Nat :=
  let n := c.toNat
  if 48 ≤ n ∧ n ≤ 57 then some (n - 48)
  else if 65 ≤ n ∧ n ≤ 70 then some (n - 55)
  else if 97 ≤ n ∧ n ≤ 102 then some (n - 87)
  else none

/-- Bytes serialized verbatim by the form-urlencoded serializer:
ASCII alphanumerics and `*`, `-`, `.`, `_`. -/
def isFormUnreserved (b : Nat) : Bool :=
  (48 ≤ b && b ≤ 57) || (65 ≤ b && b ≤ 90) || (97 ≤ b && b ≤ 122) ||
    b == 42 || b == 45 || b == 46 || b == 95

/-- Serialize one byte: space as `+`, unreserved bytes verbatim,
everything else percent-encoded with uppercase hex digits. -/
def escapeByte (b : Nat) : List Char :=
  if b = 32 then ['+']
  else if isFormUnreserved b then [Char.ofNat b]
  else ['%', hexDigit (b / 16), hexDigit (b % 16)]

/-- UTF-8 encoding of a unicode scalar value. -/
def utf8Encode (c : Char) : List Nat :=
  if c.toNat < 0x80 then [c.toNat]
  else if c.toNat < 0x800 then [0xC0 + c.toNat / 0x40, 0x80 + c.toNat % 0x40]
  else if c.toNat < 0x10000 then
    [0xE0 + c.toNat / 0x1000, 0x80 + c.toNat / 0x40 % 0x40, 0x80 + c.toNat % 0x40]
  else
    [0xF0 + c.toNat / 0x40000, 0x80 + c.toNat / 0x1000 % 0x40,
      0x80 + c.toNat / 0x40 % 0x40, 0x80 + c.toNat % 0x40]

/-- Form-urlencode a list of characters: UTF-8 bytes, then each byte
escaped. -/
def formEncodeChars (cs : List Char) : List Char :=
  (cs.flatMap utf8Encode).flatMap escapeByte

/-- Form-urlencode a string. -/
def formEncode (s : String) : String :=
  String.mk (formEncodeChars s.data)

/-- One `k=v` component of the serialized query string. -/
def serializePairChars (kv : String × String) : List Char :=
  formEncodeChars kv.1.data ++ '=' :: formEncodeChars kv.2.data

/-- Characters of the full serialized query string: `k=v` components
joined with `&`. -/
def queryChars : List (String × String) → List Char
  | [] => []
  | [kv] => serializePairChars kv
  | kv :: rest => serializePairChars kv ++ '&' :: queryChars rest

/-- `new URLSearchParams(q).toString()`. -/
def queryToString (ps : List (String × String)) : String :=
  String.mk (queryChars ps)

/-! ## Spec-side decoder, used to state the lossless round-trip of the
query encoding -/

/-- Undo `escapeByte`: `+` back to space, unreserved characters to their
code points, `%HH` to the encoded byte. -/
def unescapeChars : List Char → Option (List Nat)
  | [] => some []
  | c :: rest =>
    if c = '+' then (unescapeChars rest).map (32 :: ·)
    else if c = '%' then
      match rest with
      | c1 :: c2 :: rest2 =>
        match hexVal c1, hexVal c2 with
        | some h, some l => (unescapeChars rest2).map ((16 * h + l) :: ·)
        | _, _ => none
      | _ => none
    else if isFormUnreserved c.toNat then (unescapeChars rest).map (c.toNat :: ·)
    else none
termination_by l => l.length

/-- Decode one UTF-8-encoded scalar value from the front of a byte
sequence, returning it with the remaining bytes. -/
def utf8DecodeStep (b : Nat) (rest : List Nat) : Option (Char × List Nat) :=
  if b < 0x80 then some (Char.ofNat b, rest)
  else if b < 0xE0 then
    match rest with
    | b2 :: rest2 => some (Char.ofNat ((b - 0xC0) * 0x40 + (b2 - 0x80)), rest2)
    | [] => none
  else if b < 0xF0 then
    match rest with
    | b2 :: b3 :: rest2 =>
      some (Char.ofNat ((b - 0xE0) * 0x1000 + (b2 - 0x80) * 0x40 + (b3 - 0x80)), rest2)
    | _ => none
  else
    match rest with
    | b2 :: b3 :: b4 :: rest2 =>
      some (Char.ofNat ((b - 0xF0) * 0x40000 + (b2 - 0x80) * 0x1000 +
        (b3 - 0x80) * 0x40 + (b4 - 0x80)), rest2)
    | _ => none

/-- Decode a UTF-8 byte sequence back to characters. -/
def utf8Decode (l : List Nat) : Option (List Char) :=
  match l with
  | [] => some []
  | b :: rest =>
    match h : utf8DecodeStep b rest with
    | none => none
    | some cr => (utf8Decode cr.2).map (cr.1 :: ·)
termination_by l.length
decreasing_by
  have hlen : cr.2.length ≤ rest.length := by
    unfold utf8DecodeStep at h
    split at h
    · cases h
      exact Nat.le_refl _
    · split at h
      · cases rest with
        | nil => cases h
        | cons b2 rest2 =>
          cases h
          simp
      · split at h
        · cases rest with
          | nil => cases h
          | cons b2 r2 =>
            cases r2 with
            | nil => cases h
            | cons b3 rest2 =>
              cases h
              simp
              omega
        · cases rest with
          | nil => cases h
          | cons b2 r2 =>
            cases r2 with
            | nil => cases h
            | cons b3 r3 =>
              cases r3 with
              | nil => cases h
              | cons b4 rest2 =>
                cases h
                simp
                omega
  simp only [List.length_cons]
  omega

/-- Decode one form-urlencoded component back to a list of characters. -/
def formDecodeChars (cs : List Char) : Option (List Char) :=
  (unescapeChars cs).bind utf8Decode

/-- Split a character list at every occurrence of `sep`. -/
def splitOnChar (sep : Char) : List Char → List (List Char)
  | [] => [[]]
  | c :: rest =>
    if c = sep then [] :: splitOnChar sep rest
    else
      match splitOnChar sep rest with
      | [] => [[c]]
      | g :: gs => (c :: g) :: gs

/-- Decode one `k=v` component back to a key/value pair. -/
def decodePairChars (cs : List Char) : Option (String × String) :=
  match splitOnChar '=' cs with
  | [k, v] =>
    match formDecodeChars k, formDecodeChars v with
    | some ks, some vs => some (String.mk ks, String.mk vs)
    | _, _ => none
  | _ => none

/-- Decode a serialized query string back to its key/value pairs. -/
def decodeQuery (s : String) : Option (List (String × String)) :=
  if s = "" then some []
  else (splitOnChar '&' s.data).mapM decodePairChars

/-! ## Data model -/

/-- A thrown JavaScript error value, as observed through `err.message`
and `err.stack`. -/
structure JsError where
  message : String
  stack : String
deriving Repr, DecidableEq

/-- The inbound request descriptor.  `path` is `request.params.path`
(the `{*path}` wildcard capture, absent on a root request); `query` is
`request.query` (absent models a falsy value in the `request.query ?`
ternary); `headers` are the raw header pairs — the Fetch-spec `Headers`
object lowercases names on iteration, which `headersEntries` models;
`bodyText` is the outcome of `await request.text()` when the handler
invokes it. -/
structure InboundRequest where
  method : String
  path : Option String
  query : Option (List (String × String))
  headers : List (String × String)
  bodyText : Except JsError String
deriving Repr, DecidableEq

/-- Process configuration: `process.env.VITE_BACKEND_BASE_URL` and
`process.env.VITE_X_FUNCTIONS_KEY` (`none` = variable unset). -/
structure ProxyConfig where
  backendBaseUrl : Option String
  xFunctionsKey : Option String
deriving Repr, DecidableEq

/-- JavaScript truthiness of an environment variable: defined and
non-empty. -/
def envTruthy : Option String → Bool
  | none => false
  | some s => !s.isEmpty

/-- The outbound request handed to `fetch`. -/
structure OutboundRequest where
  url : String
  method : String
  headers : List (String × String)
  body : Option String
deriving Repr, DecidableEq

/-- The upstream response as the handlers observe it: `res.status`,
`res.headers.get("content-type")` and `await res.text()`. -/
structure UpstreamResponse where
  status : Nat
  contentType : Option String
  text : String
deriving Repr, DecidableEq

/-- The oracle for `fetch` followed by `res.text()`; `Except.error`
covers a throw at any point of the exchange (connection, transfer, or
reading the response). -/
def Backend : Type := OutboundRequest → Except JsError UpstreamResponse

/-- The structured JSON error payload (`jsonBody`) returned by the
handlers; fields that a given variant does not emit are `none`. -/
structure JsonErrorBody where
  statusCode : Option Nat
  error : String
  message : String
  detail : Option String
  stack : Option String
  backendUrl : Option String
deriving Repr, DecidableEq

/-- The handler's HTTP response object: status, headers, and either a
text `body` or a structured `jsonBody`. -/
structure HttpResponse where
  status : Nat
  headers : List (String × String)
  body : Option String
  jsonBody : Option JsonErrorBody
deriving Repr, DecidableEq

/-- A handler invocation either returns a response object or lets an
exception propagate to the caller. -/
inductive HandlerResult where
  | response (r : HttpResponse)
  | thrown (e : JsError)
deriving Repr, DecidableEq

/-- `true` iff the invocation produced a structured response rather than
an unhandled exception. -/
def HandlerResult.isStructured : HandlerResult → Bool
  | .response _ => true
  | .thrown _ => false

/-- One handler invocation: the outbound request issued to the backend
(`none` when no outbound call was made) and the outcome. -/
structure Trace where
  call : Option OutboundRequest
  result : HandlerResult
deriving Repr, DecidableEq

/-! ## Shared pieces of the handlers -/

/-- The target URL: `` `${backendBase}/${path}${query}` `` where `query`
is `` `?${new URLSearchParams(request.query).toString()}` `` when
`request.query` is truthy and `""` otherwise. -/
def buildBackendUrl (base path : String) (q : Option (List (String × String))) :
    String :=
  base ++ "/" ++ path ++
    (match q with
     | none => ""
     | some ps => "?" ++ queryToString ps)

/-- ASCII lowercasing of one character, as `toLowerCase()` acts on the
ASCII header names relevant here. -/
def lowerChar (c : Char) : Char :=
  if 65 ≤ c.toNat ∧ c.toNat ≤ 90 then Char.ofNat (c.toNat + 32) else c

/-- ASCII lowercasing of a string (`key.toLowerCase()` on header names). -/
def lowerStr (s : String) : String :=
  String.mk (s.data.map lowerChar)

/-- Iteration over a Fetch-spec `Headers` object
(`request.headers.entries()`): header names are normalized to lowercase. -/
def headersEntries (hs : List (String × String)) : List (String × String) :=
  hs.map (fun kv => (lowerStr kv.1, kv.2))

/-- JavaScript property assignment `obj[k] = v` on a plain object used
as a map: overwrite in place if the key exists, otherwise append. -/
def setKey (m : List (String × String)) (k v : String) :
    List (String × String) :=
  if m.any (fun p => p.1 = k) then
    m.map (fun p => if p.1 = k then (k, v) else p)
  else m ++ [(k, v)]

/-- One iteration of the header-copy loop of the second variant:
`if (key.toLowerCase() !== 'host') headers[key] = value`. -/
def copyStep (acc : List (String × String)) (kv : String × String) :
    List (String × String) :=
  if lowerStr kv.1 = "host" then acc else setKey acc kv.1 kv.2

/-- The header-copy loop of the second variant: every inbound header is
copied except names whose lowercase form is `host`. -/
def copyHeaders (entries : List (String × String)) : List (String × String) :=
  entries.foldl copyStep []

/-- `method === "GET" || method === "HEAD" ? undefined : await request.text()`;
the read happens outside the `try` block, so a failed read is an
unhandled throw. -/
def readBody (method : String) (bodyText : Except JsError String) :
    Except JsError (Option String) :=
  if method = "GET" ∨ method = "HEAD" then Except.ok none
  else bodyText.map some

/-- JavaScript `x || d` on a nullable string: both `null` and the empty
string are falsy, so either yields the default. -/
def orDefault (x : Option String) (d : String) : String :=
  match x with
  | none => d
  | some s => if s.isEmpty then d else s

/-- The shared `try { fetch ... res.text() ... } catch` stage: on success
the upstream status is forwarded verbatim with the content-type computed
as `res.headers.get("content-type") || "application/json"` (the `||`
also replaces a present-but-empty value) and the upstream body verbatim;
on a throw the variant-specific catch response is returned. -/
def fetchStage (out : OutboundRequest) (backend : Backend)
    (catchResponse : JsError → HttpResponse) : Trace :=
  match backend out with
  | Except.ok res =>
    { call := some out,
      result := HandlerResult.response
        { status := res.status,
          headers := [("Content-Type", orDefault res.contentType "application/json")],
          body := some res.text,
          jsonBody := none } }
  | Except.error err =>
    { call := some out, result := HandlerResult.response (catchResponse err) }

/-- Catch response of the first variant and of the TypeScript variant:
status 500 with message, stack and the attempted backend URL. -/
def v1CatchResponse (backendUrl : String) (err : JsError) : HttpResponse :=
  { status := 500,
    headers := [("Content-Type", "application/json")],
    body := none,
    jsonBody := some
      { statusCode := none,
        error := "Internal proxy error",
        message := err.message,
        detail := none,
        stack := some err.stack,
        backendUrl := some backendUrl } }

/-- Catch response of the second variant: status 502 with message and
the attempted backend URL (no stack in the payload). -/
def v2CatchResponse (backendUrl : String) (err : JsError) : HttpResponse :=
  { status := 502,
    headers := [("Content-Type", "application/json")],
    body := none,
    jsonBody := some
      { statusCode := some 502,
        error := "Proxy Connection Error",
        message := err.message,
        detail := none,
        stack := none,
        backendUrl := some backendUrl } }

/-- `createConfigErrorResponse` of the second variant. -/
def createConfigErrorResponse (message : String) : HttpResponse :=
  { status := 500,
    headers := [("Content-Type", "application/json")],
    body := none,
    jsonBody := some
      { statusCode := some 500,
        error := "Configuration Error",
        message := message,
        detail := some "This proxy function requires specific environment variables (VITE_BACKEND_BASE_URL and VITE_X_FUNCTIONS_KEY) to be set.",
        stack := none,
        backendUrl := none } }

/-! ## The three handler variants -/

/-- First handler in `src/api/proxy/index.js`: sample 200 response when
the backend base URL is falsy; fixed outbound headers (`Content-Type:
application/json` and the function key, defaulted to `""`); 500 catch
response. -/
def proxyHandlerV1 (cfg : ProxyConfig) (req : InboundRequest)
    (backend : Backend) : Trace :=
  let path := req.path.getD ""
  if !envTruthy cfg.backendBaseUrl then
    { call := none,
      result := HandlerResult.response
        { status := 200,
          headers := [("Content-Type", "application/json")],
          body := some "\x7b\"message\":\"Hello from proxy! Backend not configured.\"\x7d",
          jsonBody := none } }
  else
    let backendBase := cfg.backendBaseUrl.getD ""
    let backendUrl := buildBackendUrl backendBase path req.query
    let xKey := cfg.xFunctionsKey.getD ""
    let headers := [("Content-Type", "application/json"), ("x-functions-key", xKey)]
    match readBody req.method req.bodyText with
    | Except.error e => { call := none, result := HandlerResult.thrown e }
    | Except.ok body =>
      fetchStage
        { url := backendUrl, method := req.method, headers := headers, body := body }
        backend (v1CatchResponse backendUrl)

/-- Second handler in `src/api/proxy/index.js`: mandatory configuration
checks (backend base URL first, then function key), all inbound headers
forwarded except `host`, the function key set unconditionally, 502 catch
response. -/
def proxyHandlerV2 (cfg : ProxyConfig) (req : InboundRequest)
    (backend : Backend) : Trace :=
  let path := req.path.getD ""
  if !envTruthy cfg.backendBaseUrl then
    { call := none,
      result := HandlerResult.response
        (createConfigErrorResponse "VITE_BACKEND_BASE_URL is not set.") }
  else if !envTruthy cfg.xFunctionsKey then
    { call := none,
      result := HandlerResult.response
        (createConfigErrorResponse "VITE_X_FUNCTIONS_KEY is not set.") }
  else
    let backendBase := cfg.backendBaseUrl.getD ""
    let xKey := cfg.xFunctionsKey.getD ""
    let backendUrl := buildBackendUrl backendBase path req.query
    let headers := setKey (copyHeaders (headersEntries req.headers))
      "x-functions-key" xKey
    match readBody req.method req.bodyText with
    | Except.error e => { call := none, result := HandlerResult.thrown e }
    | Except.ok body =>
      fetchStage
        { url := backendUrl, method := req.method, headers := headers, body := body }
        backend (v2CatchResponse backendUrl)

/-- TypeScript handler in `src/unnamed/part_000`: no configuration
checks — an unset backend base URL interpolates into the template
literal as the string `"undefined"`; fixed outbound headers; 500 catch
response identical to the first variant. -/
def proxyHandlerTS (cfg : ProxyConfig) (req : InboundRequest)
    (backend : Backend) : Trace :=
  let path := req.path.getD ""
  let base :=
    match cfg.backendBaseUrl with
    | none => "undefined"
    | some s => s
  let backendUrl := buildBackendUrl base path req.query
  let xKey := cfg.xFunctionsKey.getD ""
  let headers := [("Content-Type", "application/json"), ("x-functions-key", xKey)]
  match readBody req.method req.bodyText with
  | Except.error e => { call := none, result := HandlerResult.thrown e }
  | Except.ok body =>
    fetchStage
      { url := backendUrl, method := req.method, headers := headers, body := body }
      backend (v1CatchResponse backendUrl)

/-! ## Concrete fixtures used to exercise the handlers -/

/-- A fully populated configuration. -/
def cfgFull : ProxyConfig := { backendBaseUrl := some "http://b", xFunctionsKey := some "k" }

/-- Configuration with `VITE_BACKEND_BASE_URL` unset. -/
def cfgNoBase : ProxyConfig := { backendBaseUrl := none, xFunctionsKey := some "k" }

/-- Configuration with `VITE_X_FUNCTIONS_KEY` unset. -/
def cfgNoKey : ProxyConfig := { backendBaseUrl := some "http://b", xFunctionsKey := none }

/-- A GET request carrying an authorization header and a client-supplied
function key. -/
def reqGet : InboundRequest :=
  { method := "GET", path := none, query := none,
    headers := [("Authorization", "t"), ("X-Functions-Key", "evil")],
    bodyText := Except.ok "" }

/-- A POST request with a path, an explicit content type and a body. -/
def reqPost : InboundRequest :=
  { method := "POST", path := some "api/items", query := none,
    headers := [("Content-Type", "text/xml")],
    bodyText := Except.ok "hello" }

/-- A GET request whose query object is present but empty. -/
def reqEmptyQuery : InboundRequest :=
  { method := "GET", path := none, query := some [], headers := [],
    bodyText := Except.ok "" }

/-- A POST request whose inbound body read fails. -/
def reqBodyFail : InboundRequest :=
  { method := "POST", path := none, query := none, headers := [],
    bodyText := Except.error { message := "read aborted", stack := "readstack" } }

/-- A backend that answers 200 `text/plain` `pong`. -/
def bkOk : Backend := fun _ =>
  Except.ok { status := 200, contentType := some "text/plain", text := "pong" }

/-- A backend that answers 404 with a JSON body and no content type. -/
def bkNotFound : Backend := fun _ =>
  Except.ok { status := 404, contentType := none, text := "missing" }

/-- A backend that answers 200 with a present-but-empty content-type
header value. -/
def bkEmptyCT : Backend := fun _ =>
  Except.ok { status := 200, contentType := some "", text := "pong" }

/-- A backend whose call throws. -/
def bkBoom : Backend := fun _ =>
  Except.error { message := "boom", stack := "bstack" }

/-- Outbound request the first variant builds for `cfgFull`/`reqGet`. -/
def outV1Get : OutboundRequest :=
  { url := "http://b/", method := "GET",
    headers := [("Content-Type", "application/json"), ("x-functions-key", "k")],
    body := none }

/-- Outbound request the second variant builds for `cfgFull`/`reqGet`. -/
def outV2Get : OutboundRequest :=
  { url := "http://b/", method := "GET",
    headers := [("authorization", "t"), ("x-functions-key", "k")],
    body := none }

/-- Outbound request the second variant builds for `cfgFull`/`reqPost`. -/
def outV2Post : OutboundRequest :=
  { url := "http://b/api/items", method := "POST",
    headers := [("content-type", "text/xml"), ("x-functions-key", "k")],
    body := some "hello" }

/-- Outbound request the second variant builds for `cfgFull`/`reqEmptyQuery`:
note the trailing `?` produced by the present-but-empty query object. -/
def outV2EmptyQuery : OutboundRequest :=
  { url := "http://b/?", method := "GET",
    headers := [("x-functions-key", "k")],
    body := none }

/-! ## Character and byte facts -/

theorem toNat_ofNat_of_valid {n : Nat} (h : n.isValidChar) :
    (Char.ofNat n).toNat = n := by
  simp [Char.ofNat, Char.ofNatAux, h, Char.toNat, UInt32.toNat]

theorem isValidChar_of_lt {n : Nat} (h : n < 0xD800) : n.isValidChar :=
  Or.inl h

theorem char_toNat_lt (c : Char) : c.toNat < 0x110000 := by
  rcases c with ⟨v, hv⟩
  rcases hv with h1 | ⟨_, h3⟩
  · exact Nat.lt_trans h1 (by norm_num)
  · exact h3

theorem hexVal_hexDigit {n : Nat} (h : n < 16) :
    hexVal (hexDigit n) = some n := by
  interval_cases n <;> decide

theorem isFormUnreserved_iff (b : Nat) :
    isFormUnreserved b = true ↔
      ((48 ≤ b ∧ b ≤ 57) ∨ (65 ≤ b ∧ b ≤ 90) ∨ (97 ≤ b ∧ b ≤ 122) ∨
        b = 42 ∨ b = 45 ∨ b = 46 ∨ b = 95) := by
  simp only [isFormUnreserved, Bool.or_eq_true, Bool.and_eq_true,
    decide_eq_true_eq, beq_iff_eq]
  tauto

/-- Characters of `escapeByte` output never collide with the separators
`&` (38) and `=` (61) of the query syntax. -/
theorem mem_escapeByte_toNat {b : Nat} (hb : b < 256) {c : Char}
    (hc : c ∈ escapeByte b) : c.toNat ≠ 38 ∧ c.toNat ≠ 61 := by
  have hd : ∀ m : Nat, m < 16 → (hexDigit m).toNat ≠ 38 ∧ (hexDigit m).toNat ≠ 61 := by
    intro m hm
    interval_cases m <;> decide
  unfold escapeByte at hc
  by_cases h32 : b = 32
  · rw [if_pos h32] at hc
    simp only [List.mem_singleton] at hc
    subst hc; decide
  · rw [if_neg h32] at hc
    by_cases hu : isFormUnreserved b = true
    · rw [if_pos hu] at hc
      simp only [List.mem_singleton] at hc
      subst hc
      rw [isFormUnreserved_iff] at hu
      rw [toNat_ofNat_of_valid (isValidChar_of_lt (by omega))]
      omega
    · rw [if_neg hu] at hc
      simp only [List.mem_cons, List.not_mem_nil, or_false] at hc
      rcases hc with h | h | h
      · subst h; decide
      · subst h; exact hd _ (Nat.div_lt_of_lt_mul (by omega))
      · subst h; exact hd _ (Nat.mod_lt _ (by omega))

/-! ## Round-trip of the form-urlencoded byte escaping -/

theorem unescapeChars_nil : unescapeChars [] = some [] := by
  unfold unescapeChars
  rfl

theorem unescapeChars_cons (c : Char) (rest : List Char) :
    unescapeChars (c :: rest) =
      if c = '+' then (unescapeChars rest).map (32 :: ·)
      else if c = '%' then
        match rest with
        | c1 :: c2 :: rest2 =>
          match hexVal c1, hexVal c2 with
          | some h, some l => (unescapeChars rest2).map ((16 * h + l) :: ·)
          | _, _ => none
        | _ => none
      else if isFormUnreserved c.toNat then (unescapeChars rest).map (c.toNat :: ·)
      else none := by
  conv_lhs => unfold unescapeChars

theorem unescape_escape {b : Nat} (hb : b < 256) (cs : List Char) :
    unescapeChars (escapeByte b ++ cs) = (unescapeChars cs).map (b :: ·) := by
  unfold escapeByte
  by_cases h32 : b = 32
  · subst h32
    rw [if_pos rfl, List.singleton_append, unescapeChars_cons, if_pos rfl]
  · rw [if_neg h32]
    by_cases hu : isFormUnreserved b = true
    · rw [if_pos hu, List.singleton_append, unescapeChars_cons]
      have hrange := (isFormUnreserved_iff b).mp hu
      have htn : (Char.ofNat b).toNat = b :=
        toNat_ofNat_of_valid (isValidChar_of_lt (by omega))
      have hplus : ¬ (Char.ofNat b = '+') := by
        intro h
        have h43 := congrArg Char.toNat h
        rw [htn] at h43
        have : ('+' : Char).toNat = 43 := rfl
        omega
      have hpct : ¬ (Char.ofNat b = '%') := by
        intro h
        have h37 := congrArg Char.toNat h
        rw [htn] at h37
        have : ('%' : Char).toNat = 37 := rfl
        omega
      rw [if_neg hplus, if_neg hpct, htn, if_pos hu]
    · rw [if_neg hu]
      rw [show ('%' :: [hexDigit (b / 16), hexDigit (b % 16)]) ++ cs =
        '%' :: hexDigit (b / 16) :: hexDigit (b % 16) :: cs from rfl]
      rw [unescapeChars_cons, if_neg (by decide : ¬('%' : Char) = '+'), if_pos rfl]
      dsimp only
      rw [hexVal_hexDigit (Nat.div_lt_of_lt_mul (by omega)),
        hexVal_hexDigit (Nat.mod_lt _ (by omega))]
      dsimp only
      have hbeq : 16 * (b / 16) + b % 16 = b := by omega
      simp only [hbeq]

theorem unescape_flat {bs : List Nat} (hb : ∀ b ∈ bs, b < 256) (cs : List Char) :
    unescapeChars (bs.flatMap escapeByte ++ cs) =
      (unescapeChars cs).map (bs ++ ·) := by
  induction bs with
  | nil =>
    simp only [List.flatMap_nil, List.nil_append]
    cases unescapeChars cs <;> rfl
  | cons b rest ih =>
    have hb0 : b < 256 := hb b (List.mem_cons_self _ _)
    have hbr : ∀ x ∈ rest, x < 256 := fun x hx => hb x (List.mem_cons_of_mem _ hx)
    rw [List.flatMap_cons, List.append_assoc, unescape_escape hb0, ih hbr]
    cases unescapeChars cs <;> rfl

/-! ## Round-trip of the UTF-8 encoding -/

theorem utf8Encode_lt (c : Char) : ∀ b ∈ utf8Encode c, b < 256 := by
  intro b hb
  have hc := char_toNat_lt c
  unfold utf8Encode at hb
  by_cases h1 : c.toNat < 0x80
  · rw [if_pos h1] at hb
    simp only [List.mem_singleton] at hb
    omega
  · rw [if_neg h1] at hb
    by_cases h2 : c.toNat < 0x800
    · rw [if_pos h2] at hb
      simp only [List.mem_cons, List.not_mem_nil, or_false] at hb
      have : c.toNat % 0x40 < 0x40 := Nat.mod_lt _ (by omega)
      omega
    · rw [if_neg h2] at hb
      by_cases h3 : c.toNat < 0x10000
      · rw [if_pos h3] at hb
        simp only [List.mem_cons, List.not_mem_nil, or_false] at hb
        have ha : c.toNat / 0x40 % 0x40 < 0x40 := Nat.mod_lt _ (by omega)
        have hm : c.toNat % 0x40 < 0x40 := Nat.mod_lt _ (by omega)
        omega
      · rw [if_neg h3] at hb
        simp only [List.mem_cons, List.not_mem_nil, or_false] at hb
        have ha : c.toNat / 0x1000 % 0x40 < 0x40 := Nat.mod_lt _ (by omega)
        have hb' : c.toNat / 0x40 % 0x40 < 0x40 := Nat.mod_lt _ (by omega)
        have hm : c.toNat % 0x40 < 0x40 := Nat.mod_lt _ (by omega)
        omega

theorem utf8Decode_nil : utf8Decode [] = some [] := by
  unfold utf8Decode
  rfl

theorem utf8Decode_cons_some {b : Nat} {rest : List Nat} {cr : Char × List Nat}
    (h : utf8DecodeStep b rest = some cr) :
    utf8Decode (b :: rest) = (utf8Decode cr.2).map (cr.1 :: ·) := by
  conv_lhs => unfold utf8Decode
  split
  · rename_i h'
    rw [h] at h'
    cases h'
  · rename_i cr' h'
    rw [h] at h'
    cases h'
    rfl

theorem utf8DecodeStep_encode (c : Char) (bs : List Nat) :
    utf8DecodeStep ((utf8Encode c).headD 0) ((utf8Encode c).tail ++ bs) =
      some (c, bs) := by
  have hofn : Char.ofNat c.toNat = c := Char.ofNat_toNat c
  have hc := char_toNat_lt c
  unfold utf8Encode utf8DecodeStep
  by_cases h1 : c.toNat < 0x80
  · rw [if_pos h1]
    dsimp only [List.headD, List.tail, List.nil_append]
    rw [if_pos h1, hofn]
  · rw [if_neg h1]
    by_cases h2 : c.toNat < 0x800
    · rw [if_pos h2]
      dsimp only [List.headD, List.tail, List.cons_append, List.nil_append]
      have hq : c.toNat / 0x40 < 0x20 := by omega
      rw [if_neg (by omega), if_pos (by omega)]
      have harith : (0xC0 + c.toNat / 0x40 - 0xC0) * 0x40 +
          (0x80 + c.toNat % 0x40 - 0x80) = c.toNat := by omega
      rw [harith, hofn]
    · rw [if_neg h2]
      by_cases h3 : c.toNat < 0x10000
      · rw [if_pos h3]
        dsimp only [List.headD, List.tail, List.cons_append, List.nil_append]
        have hq : c.toNat / 0x1000 < 0x10 := by omega
        rw [if_neg (by omega), if_neg (by omega), if_pos (by omega)]
        have harith : (0xE0 + c.toNat / 0x1000 - 0xE0) * 0x1000 +
            (0x80 + c.toNat / 0x40 % 0x40 - 0x80) * 0x40 +
            (0x80 + c.toNat % 0x40 - 0x80) = c.toNat := by omega
        rw [harith, hofn]
      · rw [if_neg h3]
        dsimp only [List.headD, List.tail, List.cons_append, List.nil_append]
        have hq : c.toNat / 0x40000 < 5 := by omega
        rw [if_neg (by omega), if_neg (by omega), if_neg (by omega)]
        have harith : (0xF0 + c.toNat / 0x40000 - 0xF0) * 0x40000 +
            (0x80 + c.toNat / 0x1000 % 0x40 - 0x80) * 0x1000 +
            (0x80 + c.toNat / 0x40 % 0x40 - 0x80) * 0x40 +
            (0x80 + c.toNat % 0x40 - 0x80) = c.toNat := by omega
        rw [harith, hofn]

theorem utf8Encode_eq_head_tail (c : Char) :
    utf8Encode c = (utf8Encode c).headD 0 :: (utf8Encode c).tail := by
  unfold utf8Encode
  by_cases h1 : c.toNat < 0x80
  · rw [if_pos h1]
    rfl
  · rw [if_neg h1]
    by_cases h2 : c.toNat < 0x800
    · rw [if_pos h2]
      rfl
    · rw [if_neg h2]
      by_cases h3 : c.toNat < 0x10000
      · rw [if_pos h3]
        rfl
      · rw [if_neg h3]
        rfl

theorem utf8Decode_encode (c : Char) (bs : List Nat) :
    utf8Decode (utf8Encode c ++ bs) = (utf8Decode bs).map (c :: ·) := by
  conv_lhs => rw [utf8Encode_eq_head_tail c]
  rw [List.cons_append, utf8Decode_cons_some (utf8DecodeStep_encode c bs)]

theorem utf8Decode_flat (cs : List Char) (bs : List Nat) :
    utf8Decode (cs.flatMap utf8Encode ++ bs) = (utf8Decode bs).map (cs ++ ·) := by
  induction cs with
  | nil =>
    simp only [List.flatMap_nil, List.nil_append]
    cases utf8Decode bs <;> rfl
  | cons c rest ih =>
    rw [List.flatMap_cons, List.append_assoc, utf8Decode_encode, ih]
    cases utf8Decode bs <;> rfl

theorem formDecode_formEncode (cs : List Char) :
    formDecodeChars (formEncodeChars cs) = some cs := by
  unfold formDecodeChars formEncodeChars
  have hlt : ∀ b ∈ cs.flatMap utf8Encode, b < 256 := by
    intro b hb
    rcases List.mem_flatMap.mp hb with ⟨c, _, hbc⟩
    exact utf8Encode_lt c b hbc
  have h1 := unescape_flat hlt []
  rw [List.append_nil] at h1
  rw [h1, unescapeChars_nil]
  have h2 := utf8Decode_flat cs []
  rw [List.append_nil] at h2
  simp only [Option.map_some', List.append_nil, Option.some_bind]
  rw [h2, utf8Decode_nil]
  simp

/-! ## Round-trip of the full query-string serialization -/

theorem string_mk_data (s : String) : String.mk s.data = s := by
  cases s
  rfl

theorem mem_formEncodeChars_ne (cs : List Char) {c : Char}
    (hc : c ∈ formEncodeChars cs) : c ≠ '&' ∧ c ≠ '=' := by
  unfold formEncodeChars at hc
  rcases List.mem_flatMap.mp hc with ⟨b, hbmem, hcb⟩
  rcases List.mem_flatMap.mp hbmem with ⟨ch, _, hbch⟩
  have hb : b < 256 := utf8Encode_lt ch b hbch
  have hne := mem_escapeByte_toNat hb hcb
  constructor
  · intro he
    subst he
    exact hne.1 rfl
  · intro he
    subst he
    exact hne.2 rfl

theorem splitOnChar_not_mem {sep : Char} {xs : List Char} (h : sep ∉ xs) :
    splitOnChar sep xs = [xs] := by
  induction xs with
  | nil => rfl
  | cons c rest ih =>
    have hc : ¬ c = sep := fun he => h (he ▸ List.mem_cons_self _ _)
    have hr : sep ∉ rest := fun hm => h (List.mem_cons_of_mem _ hm)
    conv_lhs => unfold splitOnChar
    rw [if_neg hc, ih hr]

theorem splitOnChar_append {sep : Char} {xs : List Char} (h : sep ∉ xs)
    (rest : List Char) :
    splitOnChar sep (xs ++ sep :: rest) = xs :: splitOnChar sep rest := by
  induction xs with
  | nil =>
    rw [List.nil_append]
    conv_lhs => unfold splitOnChar
    rw [if_pos rfl]
  | cons c xs2 ih =>
    have hc : ¬ c = sep := fun he => h (he ▸ List.mem_cons_self _ _)
    have hx : sep ∉ xs2 := fun hm => h (List.mem_cons_of_mem _ hm)
    rw [List.cons_append]
    conv_lhs => unfold splitOnChar
    rw [if_neg hc, ih hx]

theorem splitEq_serializePair (kv : String × String) :
    splitOnChar '=' (serializePairChars kv) =
      [formEncodeChars kv.1.data, formEncodeChars kv.2.data] := by
  unfold serializePairChars
  rw [splitOnChar_append (fun hm => (mem_formEncodeChars_ne _ hm).2 rfl)]
  rw [splitOnChar_not_mem (fun hm => (mem_formEncodeChars_ne _ hm).2 rfl)]

theorem decodePair_serialize (kv : String × String) :
    decodePairChars (serializePairChars kv) = some kv := by
  unfold decodePairChars
  rw [splitEq_serializePair]
  dsimp only
  rw [formDecode_formEncode, formDecode_formEncode]

theorem serializePairChars_ne_nil (kv : String × String) :
    serializePairChars kv ≠ [] := by
  unfold serializePairChars
  intro h
  have h2 := (List.append_eq_nil.mp h).2
  cases h2

theorem not_mem_amp_serializePair (kv : String × String) :
    '&' ∉ serializePairChars kv := by
  unfold serializePairChars
  intro hm
  rcases List.mem_append.mp hm with h | h
  · exact (mem_formEncodeChars_ne _ h).1 rfl
  · rcases List.mem_cons.mp h with h | h
    · cases h
    · exact (mem_formEncodeChars_ne _ h).1 rfl

theorem queryChars_cons_ne_nil (kv : String × String)
    (rest : List (String × String)) : queryChars (kv :: rest) ≠ [] := by
  cases rest with
  | nil => exact serializePairChars_ne_nil kv
  | cons kv2 r2 =>
    rw [show queryChars (kv :: kv2 :: r2) =
      serializePairChars kv ++ '&' :: queryChars (kv2 :: r2) from rfl]
    intro h
    have h2 := (List.append_eq_nil.mp h).2
    cases h2

theorem splitAmp_queryChars (ps : List (String × String)) (h : ps ≠ []) :
    splitOnChar '&' (queryChars ps) = ps.map serializePairChars := by
  induction ps with
  | nil => cases h rfl
  | cons kv rest ih =>
    cases rest with
    | nil =>
      rw [show queryChars [kv] = serializePairChars kv from rfl]
      rw [splitOnChar_not_mem (not_mem_amp_serializePair kv)]
      rfl
    | cons kv2 rest2 =>
      rw [show queryChars (kv :: kv2 :: rest2) =
        serializePairChars kv ++ '&' :: queryChars (kv2 :: rest2) from rfl]
      rw [splitOnChar_append (not_mem_amp_serializePair kv),
        ih (by simp)]
      rfl

theorem mapM_decodePair (ps : List (String × String)) :
    (ps.map serializePairChars).mapM decodePairChars = some ps := by
  induction ps with
  | nil => rfl
  | cons kv rest ih =>
    rw [List.map_cons]
    simp only [List.mapM_cons, decodePair_serialize, ih, Option.pure_def,
      Option.bind_eq_bind]
    rfl

/-- Decoding the serialized query string reproduces the key/value pairs
exactly. -/
theorem decodeQuery_queryToString (ps : List (String × String)) :
    decodeQuery (queryToString ps) = some ps := by
  cases ps with
  | nil => rfl
  | cons kv rest =>
    unfold decodeQuery queryToString
    rw [if_neg (fun h => queryChars_cons_ne_nil kv rest (congrArg String.data h))]
    rw [show (String.mk (queryChars (kv :: rest))).data = queryChars (kv :: rest)
      from rfl]
    rw [splitAmp_queryChars _ (by simp), mapM_decodePair]

/-! ## Association-list facts about `setKey` and `copyHeaders` -/

theorem lookup_map_overwrite {m : List (String × String)} {k : String}
    (v : String) (h : ∃ p ∈ m, p.1 = k) :
    List.lookup k (m.map (fun p => if p.1 = k then (k, v) else p)) = some v := by
  induction m with
  | nil =>
    obtain ⟨p, hp, _⟩ := h
    cases hp
  | cons q rest ih =>
    rw [List.map_cons]
    by_cases hq : q.1 = k
    · rw [if_pos hq]
      simp [List.lookup]
    · rw [if_neg hq]
      have hne : (k == q.1) = false := by
        simp only [beq_eq_false_iff_ne, ne_eq]
        intro he
        exact hq he.symm
      simp only [List.lookup, hne]
      apply ih
      obtain ⟨p, hp, hpk⟩ := h
      rcases List.mem_cons.mp hp with h1 | h1
      · exact absurd (h1 ▸ hpk) hq
      · exact ⟨p, h1, hpk⟩

theorem lookup_map_overwrite_ne {m : List (String × String)} {k k' : String}
    (v : String) (h : k' ≠ k) :
    List.lookup k' (m.map (fun p => if p.1 = k then (k, v) else p)) =
      List.lookup k' m := by
  induction m with
  | nil => rfl
  | cons q rest ih =>
    rw [List.map_cons]
    by_cases hq : q.1 = k
    · rw [if_pos hq]
      have h1 : (k' == k) = false := by
        simp only [beq_eq_false_iff_ne, ne_eq]
        exact h
      have h2 : (k' == q.1) = false := by
        simp only [beq_eq_false_iff_ne, ne_eq]
        intro he
        exact h (he.trans hq)
      simp only [List.lookup, h1, h2, ih]
    · rw [if_neg hq]
      simp only [List.lookup, ih]

theorem lookup_append_single {m : List (String × String)} {k : String}
    (v : String) (h : ∀ p ∈ m, p.1 ≠ k) :
    List.lookup k (m ++ [(k, v)]) = some v := by
  induction m with
  | nil => simp [List.lookup]
  | cons q rest ih =>
    have hq : q.1 ≠ k := h q (List.mem_cons_self _ _)
    have hne : (k == q.1) = false := by
      simp only [beq_eq_false_iff_ne, ne_eq]
      intro he
      exact hq he.symm
    rw [List.cons_append]
    simp only [List.lookup, hne]
    exact ih (fun p hp => h p (List.mem_cons_of_mem _ hp))

theorem lookup_append_single_ne {m : List (String × String)} {k k' : String}
    (v : String) (h : k' ≠ k) :
    List.lookup k' (m ++ [(k, v)]) = List.lookup k' m := by
  induction m with
  | nil =>
    have hne : (k' == k) = false := by
      simp only [beq_eq_false_iff_ne, ne_eq]
      exact h
    simp [List.lookup, hne]
  | cons q rest ih =>
    rw [List.cons_append]
    simp only [List.lookup, ih]

theorem lookup_setKey_self (m : List (String × String)) (k v : String) :
    List.lookup k (setKey m k v) = some v := by
  unfold setKey
  split
  · rename_i h
    rw [List.any_eq_true] at h
    obtain ⟨p, hp, hpk⟩ := h
    rw [decide_eq_true_eq] at hpk
    exact lookup_map_overwrite v ⟨p, hp, hpk⟩
  · rename_i h
    rw [List.any_eq_true] at h
    push_neg at h
    apply lookup_append_single
    intro p hp he
    exact h p hp (decide_eq_true he)

theorem lookup_setKey_ne (m : List (String × String)) {k k' : String}
    (v : String) (h : k' ≠ k) :
    List.lookup k' (setKey m k v) = List.lookup k' m := by
  unfold setKey
  split
  · exact lookup_map_overwrite_ne v h
  · exact lookup_append_single_ne v h

theorem mem_setKey {m : List (String × String)} {k v : String}
    {p : String × String} (h : p ∈ setKey m k v) :
    p = (k, v) ∨ (p ∈ m ∧ p.1 ≠ k) := by
  unfold setKey at h
  split at h
  · rcases List.mem_map.mp h with ⟨q, hq, hfq⟩
    by_cases hqk : q.1 = k
    · rw [if_pos hqk] at hfq
      exact Or.inl hfq.symm
    · rw [if_neg hqk] at hfq
      exact Or.inr ⟨hfq ▸ hq, hfq ▸ hqk⟩
  · rename_i hany
    rw [List.any_eq_true] at hany
    push_neg at hany
    rcases List.mem_append.mp h with h1 | h1
    · refine Or.inr ⟨h1, fun he => ?_⟩
      exact hany p h1 (decide_eq_true he)
    · rcases List.mem_singleton.mp h1 with h2
      exact Or.inl h2

theorem mem_foldl_copyStep {es : List (String × String)} :
    ∀ {acc : List (String × String)} {p : String × String},
      p ∈ es.foldl copyStep acc →
      p ∈ acc ∨ (p ∈ es ∧ lowerStr p.1 ≠ "host") := by
  induction es with
  | nil =>
    intro acc p h
    exact Or.inl h
  | cons kv rest ih =>
    intro acc p h
    rw [List.foldl_cons] at h
    rcases ih h with h1 | h1
    · unfold copyStep at h1
      split at h1
      · exact Or.inl h1
      · rename_i hhost
        rcases mem_setKey h1 with h2 | h2
        · refine Or.inr ⟨?_, ?_⟩
          · rw [h2]
            exact List.mem_cons_self _ _
          · rw [h2]
            exact hhost
        · exact Or.inl h2.1
    · exact Or.inr ⟨List.mem_cons_of_mem _ h1.1, h1.2⟩

theorem lookup_foldl_copyStep_ne {es : List (String × String)} {k : String} :
    ∀ {acc : List (String × String)},
      (∀ kv ∈ es, kv.1 ≠ k) →
      List.lookup k (es.foldl copyStep acc) = List.lookup k acc := by
  induction es with
  | nil =>
    intro acc _
    rfl
  | cons kv rest ih =>
    intro acc h
    rw [List.foldl_cons]
    rw [ih (fun q hq => h q (List.mem_cons_of_mem _ hq))]
    unfold copyStep
    split
    · rfl
    · exact lookup_setKey_ne acc kv.2
        (fun he => h kv (List.mem_cons_self _ _) he.symm)

theorem lookup_foldl_copyStep_some {es : List (String × String)} {k : String} :
    ∀ {acc : List (String × String)},
      (∃ v, List.lookup k acc = some v) →
      ∃ v, List.lookup k (es.foldl copyStep acc) = some v := by
  induction es with
  | nil =>
    intro acc h
    exact h
  | cons kv rest ih =>
    intro acc h
    rw [List.foldl_cons]
    apply ih
    unfold copyStep
    split
    · exact h
    · by_cases hk : kv.1 = k
      · subst hk
        exact ⟨kv.2, lookup_setKey_self acc kv.1 kv.2⟩
      · obtain ⟨v, hv⟩ := h
        refine ⟨v, ?_⟩
        rw [lookup_setKey_ne acc kv.2 (fun he => hk he.symm)]
        exact hv

theorem lookup_foldl_copyStep_present {k v : String} {es : List (String × String)} :
    ∀ {acc : List (String × String)},
      (k, v) ∈ es → lowerStr k ≠ "host" →
      ∃ v2, List.lookup k (es.foldl copyStep acc) = some v2 := by
  induction es with
  | nil =>
    intro acc h _
    cases h
  | cons kv rest ih =>
    intro acc hmem hhost
    rw [List.foldl_cons]
    rcases List.mem_cons.mp hmem with h1 | h1
    · subst h1
      apply lookup_foldl_copyStep_some
      refine ⟨v, ?_⟩
      unfold copyStep
      rw [if_neg hhost]
      exact lookup_setKey_self acc k v
    · exact ih h1 hhost

theorem lookup_copyHeaders_present {es : List (String × String)}
    {k v : String} (hmem : (k, v) ∈ es) (hhost : lowerStr k ≠ "host") :
    ∃ v2, List.lookup k (copyHeaders es) = some v2 := by
  unfold copyHeaders
  exact lookup_foldl_copyStep_present hmem hhost

theorem lookup_foldl_copyStep_nodup {k v : String} {es : List (String × String)} :
    ∀ {acc : List (String × String)},
      (k, v) ∈ es → (es.map Prod.fst).Nodup → lowerStr k ≠ "host" →
      List.lookup k (es.foldl copyStep acc) = some v := by
  induction es with
  | nil =>
    intro acc h _ _
    cases h
  | cons kv rest ih =>
    intro acc hmem hnd hhost
    rw [List.foldl_cons]
    rw [List.map_cons, List.nodup_cons] at hnd
    rcases List.mem_cons.mp hmem with h1 | h1
    · subst h1
      have hrest : ∀ q ∈ rest, q.1 ≠ k := by
        intro q hq he
        apply hnd.1
        show k ∈ List.map Prod.fst rest
        rw [← he]
        exact List.mem_map_of_mem Prod.fst hq
      rw [lookup_foldl_copyStep_ne hrest]
      unfold copyStep
      rw [if_neg hhost]
      exact lookup_setKey_self acc k v
    · exact ih h1 hnd.2 hhost

theorem lookup_copyHeaders_nodup {es : List (String × String)} {k v : String}
    (hmem : (k, v) ∈ es) (hnd : (es.map Prod.fst).Nodup)
    (hhost : lowerStr k ≠ "host") :
    List.lookup k (copyHeaders es) = some v := by
  unfold copyHeaders
  exact lookup_foldl_copyStep_nodup hmem hnd hhost

theorem lookup_copyHeaders_none {es : List (String × String)} {k : String}
    (h : ∀ v, (k, v) ∉ es) : List.lookup k (copyHeaders es) = none := by
  unfold copyHeaders
  rw [lookup_foldl_copyStep_ne]
  · rfl
  · intro kv hkv he
    apply h kv.2
    show (k, kv.2) ∈ es
    rw [← he]
    exact hkv

/-! ## Control-flow characterization of the three handlers -/

theorem fetchStage_call (out : OutboundRequest) (backend : Backend)
    (cr : JsError → HttpResponse) : (fetchStage out backend cr).call = some out := by
  unfold fetchStage
  cases backend out <;> rfl

theorem fetchStage_ok {out : OutboundRequest} {backend : Backend}
    {cr : JsError → HttpResponse} {res : UpstreamResponse}
    (h : backend out = Except.ok res) :
    (fetchStage out backend cr).result = HandlerResult.response
      { status := res.status,
        headers := [("Content-Type", orDefault res.contentType "application/json")],
        body := some res.text,
        jsonBody := none } := by
  unfold fetchStage
  rw [h]

theorem fetchStage_error {out : OutboundRequest} {backend : Backend}
    {cr : JsError → HttpResponse} {err : JsError}
    (h : backend out = Except.error err) :
    (fetchStage out backend cr).result = HandlerResult.response (cr err) := by
  unfold fetchStage
  rw [h]

theorem fetchStage_structured (out : OutboundRequest) (backend : Backend)
    (cr : JsError → HttpResponse) :
    ((fetchStage out backend cr).result).isStructured = true := by
  unfold fetchStage
  cases backend out <;> rfl

theorem readBody_ok_of {method : String} {bt : Except JsError String}
    (h : method = "GET" ∨ method = "HEAD" ∨ bt.isOk = true) :
    ∃ b, readBody method bt = Except.ok b := by
  unfold readBody
  by_cases hm : method = "GET" ∨ method = "HEAD"
  · rw [if_pos hm]
    exact ⟨none, rfl⟩
  · rw [if_neg hm]
    rcases h with h | h | h
    · exact absurd (Or.inl h) hm
    · exact absurd (Or.inr h) hm
    · cases bt with
      | error e => cases h
      | ok t => exact ⟨some t, rfl⟩

theorem proxyHandlerV1_call {cfg : ProxyConfig} {req : InboundRequest}
    {backend : Backend} {out : OutboundRequest}
    (h : (proxyHandlerV1 cfg req backend).call = some out) :
    envTruthy cfg.backendBaseUrl = true ∧
    ∃ body, readBody req.method req.bodyText = Except.ok body ∧
      out = { url := buildBackendUrl (cfg.backendBaseUrl.getD "") (req.path.getD "") req.query,
              method := req.method,
              headers := [("Content-Type", "application/json"),
                ("x-functions-key", cfg.xFunctionsKey.getD "")],
              body := body } ∧
      proxyHandlerV1 cfg req backend = fetchStage out backend (v1CatchResponse out.url) := by
  by_cases h1 : envTruthy cfg.backendBaseUrl = true
  · refine ⟨h1, ?_⟩
    unfold proxyHandlerV1 at h ⊢
    simp only [h1, Bool.not_true, Bool.false_eq_true, if_false] at h ⊢
    cases hb : readBody req.method req.bodyText with
    | error e =>
      rw [hb] at h
      simp at h
    | ok body =>
      rw [hb] at h
      rw [fetchStage_call] at h
      have hout := Option.some.inj h
      refine ⟨body, rfl, hout.symm, ?_⟩
      rw [← hout]
  · unfold proxyHandlerV1 at h
    simp only [Bool.not_eq_true] at h1
    simp only [h1, Bool.not_false, if_true] at h
    simp at h

theorem proxyHandlerV2_call {cfg : ProxyConfig} {req : InboundRequest}
    {backend : Backend} {out : OutboundRequest}
    (h : (proxyHandlerV2 cfg req backend).call = some out) :
    envTruthy cfg.backendBaseUrl = true ∧ envTruthy cfg.xFunctionsKey = true ∧
    ∃ body, readBody req.method req.bodyText = Except.ok body ∧
      out = { url := buildBackendUrl (cfg.backendBaseUrl.getD "") (req.path.getD "") req.query,
              method := req.method,
              headers := setKey (copyHeaders (headersEntries req.headers))
                "x-functions-key" (cfg.xFunctionsKey.getD ""),
              body := body } ∧
      proxyHandlerV2 cfg req backend = fetchStage out backend (v2CatchResponse out.url) := by
  by_cases h1 : envTruthy cfg.backendBaseUrl = true
  · by_cases h2 : envTruthy cfg.xFunctionsKey = true
    · refine ⟨h1, h2, ?_⟩
      unfold proxyHandlerV2 at h ⊢
      simp only [h1, h2, Bool.not_true, Bool.false_eq_true, if_false] at h ⊢
      cases hb : readBody req.method req.bodyText with
      | error e =>
        rw [hb] at h
        simp at h
      | ok body =>
        rw [hb] at h
        rw [fetchStage_call] at h
        have hout := Option.some.inj h
        refine ⟨body, rfl, hout.symm, ?_⟩
        rw [← hout]
    · unfold proxyHandlerV2 at h
      simp only [Bool.not_eq_true] at h2
      simp only [h1, h2, Bool.not_true, Bool.not_false, Bool.false_eq_true,
        if_false, if_true] at h
      simp at h
  · unfold proxyHandlerV2 at h
    simp only [Bool.not_eq_true] at h1
    simp only [h1, Bool.not_false, if_true] at h
    simp at h

theorem proxyHandlerTS_call {cfg : ProxyConfig} {req : InboundRequest}
    {backend : Backend} {out : OutboundRequest}
    (h : (proxyHandlerTS cfg req backend).call = some out) :
    ∃ body, readBody req.method req.bodyText = Except.ok body ∧
      out = { url := buildBackendUrl
                (match cfg.backendBaseUrl with
                 | none => "undefined"
                 | some s => s) (req.path.getD "") req.query,
              method := req.method,
              headers := [("Content-Type", "application/json"),
                ("x-functions-key", cfg.xFunctionsKey.getD "")],
              body := body } ∧
      proxyHandlerTS cfg req backend = fetchStage out backend (v1CatchResponse out.url) := by
  unfold proxyHandlerTS at h ⊢
  cases hb : readBody req.method req.bodyText with
  | error e =>
    rw [hb] at h
    simp at h
  | ok body =>
    rw [hb] at h
    rw [fetchStage_call] at h
    have hout := Option.some.inj h
    refine ⟨body, rfl, hout.symm, ?_⟩
    rw [← hout]

theorem proxyHandlerV1_noBase {cfg : ProxyConfig} (req : InboundRequest)
    (backend : Backend) (h : envTruthy cfg.backendBaseUrl = false) :
    proxyHandlerV1 cfg req backend =
      { call := none,
        result := HandlerResult.response
          { status := 200,
            headers := [("Content-Type", "application/json")],
            body := some "\x7b\"message\":\"Hello from proxy! Backend not configured.\"\x7d",
            jsonBody := none } } := by
  unfold proxyHandlerV1
  simp only [h, Bool.not_false, if_true]

theorem proxyHandlerV2_noBase {cfg : ProxyConfig} (req : InboundRequest)
    (backend : Backend) (h : envTruthy cfg.backendBaseUrl = false) :
    proxyHandlerV2 cfg req backend =
      { call := none,
        result := HandlerResult.response
          (createConfigErrorResponse "VITE_BACKEND_BASE_URL is not set.") } := by
  unfold proxyHandlerV2
  simp only [h, Bool.not_false, if_true]

theorem proxyHandlerV2_noKey {cfg : ProxyConfig} (req : InboundRequest)
    (backend : Backend) (h1 : envTruthy cfg.backendBaseUrl = true)
    (h2 : envTruthy cfg.xFunctionsKey = false) :
    proxyHandlerV2 cfg req backend =
      { call := none,
        result := HandlerResult.response
          (createConfigErrorResponse "VITE_X_FUNCTIONS_KEY is not set.") } := by
  unfold proxyHandlerV2
  simp only [h1, h2, Bool.not_true, Bool.not_false, Bool.false_eq_true,
    if_false, if_true]

theorem proxyHandlerV1_structured {cfg : ProxyConfig} {req : InboundRequest}
    (backend : Backend)
    (h : req.method = "GET" ∨ req.method = "HEAD" ∨ req.bodyText.isOk = true) :
    ((proxyHandlerV1 cfg req backend).result).isStructured = true := by
  unfold proxyHandlerV1
  by_cases h1 : envTruthy cfg.backendBaseUrl = true
  · simp only [h1, Bool.not_true, Bool.false_eq_true, if_false]
    obtain ⟨b, hb⟩ := readBody_ok_of h
    rw [hb]
    exact fetchStage_structured _ _ _
  · simp only [Bool.not_eq_true] at h1
    simp only [h1, Bool.not_false, if_true]
    rfl

theorem proxyHandlerV2_structured {cfg : ProxyConfig} {req : InboundRequest}
    (backend : Backend)
    (h : req.method = "GET" ∨ req.method = "HEAD" ∨ req.bodyText.isOk = true) :
    ((proxyHandlerV2 cfg req backend).result).isStructured = true := by
  unfold proxyHandlerV2
  by_cases h1 : envTruthy cfg.backendBaseUrl = true
  · by_cases h2 : envTruthy cfg.xFunctionsKey = true
    · simp only [h1, h2, Bool.not_true, Bool.false_eq_true, if_false]
      obtain ⟨b, hb⟩ := readBody_ok_of h
      rw [hb]
      exact fetchStage_structured _ _ _
    · simp only [Bool.not_eq_true] at h2
      simp only [h1, h2, Bool.not_true, Bool.not_false, Bool.false_eq_true,
        if_false, if_true]
      rfl
  · simp only [Bool.not_eq_true] at h1
    simp only [h1, Bool.not_false, if_true]
    rfl

theorem proxyHandlerTS_structured {cfg : ProxyConfig} {req : InboundRequest}
    (backend : Backend)
    (h : req.method = "GET" ∨ req.method = "HEAD" ∨ req.bodyText.isOk = true) :
    ((proxyHandlerTS cfg req backend).result).isStructured = true := by
  unfold proxyHandlerTS
  obtain ⟨b, hb⟩ := readBody_ok_of h
  rw [hb]
  exact fetchStage_structured _ _ _

theorem readBody_spec {method : String} {bt : Except JsError String}
    {b : Option String} (h : readBody method bt = Except.ok b) :
    ((method = "GET" ∨ method = "HEAD") → b = none) ∧
    (¬(method = "GET" ∨ method = "HEAD") → ∃ t, bt = Except.ok t ∧ b = some t) := by
  unfold readBody at h
  by_cases hm : method = "GET" ∨ method = "HEAD"
  · rw [if_pos hm] at h
    cases h
    exact ⟨fun _ => rfl, fun hc => absurd hm hc⟩
  · rw [if_neg hm] at h
    refine ⟨fun hc => absurd hc hm, fun _ => ?_⟩
    cases bt with
    | error e => cases h
    | ok t =>
      cases h
      exact ⟨t, rfl, rfl⟩

/-! ## The claims -/

/-- C1: for every configuration, inbound request and backend oracle, any
outbound request issued by any of the three handler variants carries the
configured function key (defaulted to `""` where the code applies
`|| ""`) as its `x-functions-key` header value, and no other value is
associated to that header name — a client-supplied value never reaches
the backend. -/
theorem c1_secret_header_is_configured :
    ∀ (cfg : ProxyConfig) (req : InboundRequest) (backend : Backend)
      (out : OutboundRequest),
      ((proxyHandlerV1 cfg req backend).call = some out ∨
       (proxyHandlerV2 cfg req backend).call = some out ∨
       (proxyHandlerTS cfg req backend).call = some out) →
      List.lookup "x-functions-key" out.headers =
        some (cfg.xFunctionsKey.getD "") ∧
      ∀ v, ("x-functions-key", v) ∈ out.headers →
        v = cfg.xFunctionsKey.getD "" := by
  intro cfg req backend out hcall
  have hfixed : ∀ (u m : String) (b : Option String),
      out = { url := u, method := m,
              headers := [("Content-Type", "application/json"),
                ("x-functions-key", cfg.xFunctionsKey.getD "")],
              body := b } →
      List.lookup "x-functions-key" out.headers =
        some (cfg.xFunctionsKey.getD "") ∧
      ∀ v, ("x-functions-key", v) ∈ out.headers →
        v = cfg.xFunctionsKey.getD "" := by
    intro u m b hout
    subst hout
    dsimp only
    constructor
    · rfl
    · intro v hv
      rcases List.mem_cons.mp hv with h1 | h1
      · have hk : ("x-functions-key" : String) = "Content-Type" :=
          congrArg Prod.fst h1
        exact absurd hk (by decide)
      · rcases List.mem_singleton.mp h1 with h2
        exact congrArg Prod.snd h2
  rcases hcall with h | h | h
  · obtain ⟨_, body, _, hout, _⟩ := proxyHandlerV1_call h
    exact hfixed _ _ _ hout
  · obtain ⟨_, hkey, body, _, hout, _⟩ := proxyHandlerV2_call h
    subst hout
    dsimp only
    constructor
    · exact lookup_setKey_self _ _ _
    · intro v hv
      rcases mem_setKey hv with h1 | h1
      · exact congrArg Prod.snd h1
      · exact absurd rfl h1.2
  · obtain ⟨body, _, hout, _⟩ := proxyHandlerTS_call h
    exact hfixed _ _ _ hout

/-- C1 witness: with the full configuration and a GET request that tries
to smuggle `X-Functions-Key: evil`, the second variant's outbound request
carries the configured key `k`. -/
theorem c1_witness :
    List.lookup "x-functions-key" outV2Get.headers = some "k" :=
  (c1_secret_header_is_configured cfgFull reqGet bkOk outV2Get
    (Or.inr (Or.inl (by decide)))).1

/-- C5: for every configuration, inbound request and backend oracle, any
outbound request issued by any of the three handler variants carries no
body when the method is GET or HEAD, and otherwise carries exactly the
successfully read inbound body text. -/
theorem c5_body_forwarding :
    ∀ (cfg : ProxyConfig) (req : InboundRequest) (backend : Backend)
      (out : OutboundRequest),
      ((proxyHandlerV1 cfg req backend).call = some out ∨
       (proxyHandlerV2 cfg req backend).call = some out ∨
       (proxyHandlerTS cfg req backend).call = some out) →
      ((req.method = "GET" ∨ req.method = "HEAD") → out.body = none) ∧
      (¬(req.method = "GET" ∨ req.method = "HEAD") →
        ∃ t, req.bodyText = Except.ok t ∧ out.body = some t) := by
  intro cfg req backend out hcall
  rcases hcall with h | h | h
  · obtain ⟨_, body, hb, hout, _⟩ := proxyHandlerV1_call h
    subst hout
    exact readBody_spec hb
  · obtain ⟨_, _, body, hb, hout, _⟩ := proxyHandlerV2_call h
    subst hout
    exact readBody_spec hb
  · obtain ⟨body, hb, hout, _⟩ := proxyHandlerTS_call h
    subst hout
    exact readBody_spec hb

/-- C5 witness: the first variant's outbound request for a GET inbound
request carries no body. -/
theorem c5_witness : outV1Get.body = none :=
  (c5_body_forwarding cfgFull reqGet bkOk outV1Get
    (Or.inl (by decide))).1 (Or.inl rfl)

/-- C7 counterexample: a successful upstream answer carrying a
present-but-empty content-type header value is not passed through — the
JavaScript `||` fallback replaces the empty string with
`application/json`, so the response's content-type differs from the
upstream's. -/
theorem c7_counterexample :
    bkEmptyCT outV2Get =
      Except.ok { status := 200, contentType := some "", text := "pong" } ∧
    (proxyHandlerV2 cfgFull reqGet bkEmptyCT).result = HandlerResult.response
      { status := 200,
        headers := [("Content-Type", "application/json")],
        body := some "pong", jsonBody := none } ∧
    ("application/json" : String) ≠ "" := by
  exact ⟨by decide, by decide, by decide⟩

/-- C7 (amended): for every configuration, inbound request and backend
oracle, when the upstream exchange of any of the three handler variants
succeeds, the handler's response carries the upstream status verbatim,
the full upstream body verbatim, and the upstream content-type — falling
back to `application/json` when the upstream provides none or an empty
one (the code's `|| "application/json"` treats the empty string as
absent). -/
theorem c7_success_passthrough :
    ∀ (cfg : ProxyConfig) (req : InboundRequest) (backend : Backend)
      (out : OutboundRequest) (res : UpstreamResponse),
      ((proxyHandlerV1 cfg req backend).call = some out →
        backend out = Except.ok res →
        (proxyHandlerV1 cfg req backend).result = HandlerResult.response
          { status := res.status,
            headers := [("Content-Type", orDefault res.contentType "application/json")],
            body := some res.text, jsonBody := none }) ∧
      ((proxyHandlerV2 cfg req backend).call = some out →
        backend out = Except.ok res →
        (proxyHandlerV2 cfg req backend).result = HandlerResult.response
          { status := res.status,
            headers := [("Content-Type", orDefault res.contentType "application/json")],
            body := some res.text, jsonBody := none }) ∧
      ((proxyHandlerTS cfg req backend).call = some out →
        backend out = Except.ok res →
        (proxyHandlerTS cfg req backend).result = HandlerResult.response
          { status := res.status,
            headers := [("Content-Type", orDefault res.contentType "application/json")],
            body := some res.text, jsonBody := none }) := by
  intro cfg req backend out res
  refine ⟨fun h hb => ?_, fun h hb => ?_, fun h hb => ?_⟩
  · obtain ⟨_, body, _, _, htr⟩ := proxyHandlerV1_call h
    rw [htr]
    exact fetchStage_ok hb
  · obtain ⟨_, _, body, _, _, htr⟩ := proxyHandlerV2_call h
    rw [htr]
    exact fetchStage_ok hb
  · obtain ⟨body, _, _, htr⟩ := proxyHandlerTS_call h
    rw [htr]
    exact fetchStage_ok hb

/-- C7 witness: a 404 upstream answer with no content-type is forwarded
by the second variant as status 404, content-type `application/json`
(the fallback) and the body verbatim. -/
theorem c7_witness :
    (proxyHandlerV2 cfgFull reqGet bkNotFound).result = HandlerResult.response
      { status := 404, headers := [("Content-Type", "application/json")],
        body := some "missing", jsonBody := none } :=
  (c7_success_passthrough cfgFull reqGet bkNotFound outV2Get
    { status := 404, contentType := none, text := "missing" }).2.1
    (by decide) rfl

/-- C10: whenever the first handler variant or the TypeScript variant
issues an outbound request and the upstream call throws, the returned
JSON error body unconditionally carries the raw exception message, the
raw exception stack trace and the attempted backend URL. -/
theorem c10_diagnostic_leak :
    ∀ (cfg : ProxyConfig) (req : InboundRequest) (backend : Backend)
      (out : OutboundRequest) (err : JsError),
      ((proxyHandlerV1 cfg req backend).call = some out →
        backend out = Except.error err →
        (proxyHandlerV1 cfg req backend).result = HandlerResult.response
          { status := 500,
            headers := [("Content-Type", "application/json")],
            body := none,
            jsonBody := some
              { statusCode := none, error := "Internal proxy error",
                message := err.message, detail := none,
                stack := some err.stack, backendUrl := some out.url } }) ∧
      ((proxyHandlerTS cfg req backend).call = some out →
        backend out = Except.error err →
        (proxyHandlerTS cfg req backend).result = HandlerResult.response
          { status := 500,
            headers := [("Content-Type", "application/json")],
            body := none,
            jsonBody := some
              { statusCode := none, error := "Internal proxy error",
                message := err.message, detail := none,
                stack := some err.stack, backendUrl := some out.url } }) := by
  intro cfg req backend out err
  refine ⟨fun h hb => ?_, fun h hb => ?_⟩
  · obtain ⟨_, body, _, _, htr⟩ := proxyHandlerV1_call h
    rw [htr]
    exact fetchStage_error hb
  · obtain ⟨body, _, _, htr⟩ := proxyHandlerTS_call h
    rw [htr]
    exact fetchStage_error hb

/-- C10 witness: the TypeScript variant exposes message, stack and
attempted URL on a concrete failing upstream call. -/
theorem c10_witness :
    (proxyHandlerTS cfgFull reqGet bkBoom).result = HandlerResult.response
      { status := 500,
        headers := [("Content-Type", "application/json")],
        body := none,
        jsonBody := some
          { statusCode := none, error := "Internal proxy error",
            message := "boom", detail := none,
            stack := some "bstack", backendUrl := some "http://b/" } } :=
  (c10_diagnostic_leak cfgFull reqGet bkBoom outV1Get
    { message := "boom", stack := "bstack" }).2 (by decide) rfl

/-- C2 counterexample: in the first handler variant, an unset backend
base URL yields a 200 sample response with no error payload — not a 500
ConfigurationError response — so the claim fails for that handler. -/
theorem c2_counterexample :
    proxyHandlerV1 cfgNoBase reqGet bkOk =
      { call := none,
        result := HandlerResult.response
          { status := 200,
            headers := [("Content-Type", "application/json")],
            body := some "\x7b\"message\":\"Hello from proxy! Backend not configured.\"\x7d",
            jsonBody := none } } ∧
    (200 : Nat) ≠ 500 := by
  exact ⟨by decide, by decide⟩

/-- C2 (amended): the second handler variant behaves as claimed — with a
falsy backend base URL it returns a 500 "Configuration Error" response
naming `VITE_BACKEND_BASE_URL` and makes no outbound call; with the base
URL truthy and the key falsy it returns a 500 "Configuration Error"
response naming `VITE_X_FUNCTIONS_KEY` and makes no outbound call; the
base-URL check runs first.  The first variant instead returns a 200
sample response (no outbound call, no error payload) when the base URL
is falsy and never checks the secret; the TypeScript variant performs
neither check. -/
theorem c2_config_checks_amended :
    ∀ (cfg : ProxyConfig) (req : InboundRequest) (backend : Backend),
      (envTruthy cfg.backendBaseUrl = false →
        (proxyHandlerV2 cfg req backend).call = none ∧
        (proxyHandlerV2 cfg req backend).result = HandlerResult.response
          { status := 500,
            headers := [("Content-Type", "application/json")],
            body := none,
            jsonBody := some
              { statusCode := some 500, error := "Configuration Error",
                message := "VITE_BACKEND_BASE_URL is not set.",
                detail := some "This proxy function requires specific environment variables (VITE_BACKEND_BASE_URL and VITE_X_FUNCTIONS_KEY) to be set.",
                stack := none, backendUrl := none } }) ∧
      (envTruthy cfg.backendBaseUrl = true → envTruthy cfg.xFunctionsKey = false →
        (proxyHandlerV2 cfg req backend).call = none ∧
        (proxyHandlerV2 cfg req backend).result = HandlerResult.response
          { status := 500,
            headers := [("Content-Type", "application/json")],
            body := none,
            jsonBody := some
              { statusCode := some 500, error := "Configuration Error",
                message := "VITE_X_FUNCTIONS_KEY is not set.",
                detail := some "This proxy function requires specific environment variables (VITE_BACKEND_BASE_URL and VITE_X_FUNCTIONS_KEY) to be set.",
                stack := none, backendUrl := none } }) ∧
      (envTruthy cfg.backendBaseUrl = false →
        (proxyHandlerV1 cfg req backend).call = none ∧
        (proxyHandlerV1 cfg req backend).result = HandlerResult.response
          { status := 200,
            headers := [("Content-Type", "application/json")],
            body := some "\x7b\"message\":\"Hello from proxy! Backend not configured.\"\x7d",
            jsonBody := none }) := by
  intro cfg req backend
  refine ⟨fun h => ?_, fun h1 h2 => ?_, fun h => ?_⟩
  · rw [proxyHandlerV2_noBase req backend h]
    exact ⟨rfl, rfl⟩
  · rw [proxyHandlerV2_noKey req backend h1 h2]
    exact ⟨rfl, rfl⟩
  · rw [proxyHandlerV1_noBase req backend h]
    exact ⟨rfl, rfl⟩

/-- C2 witness: with `VITE_BACKEND_BASE_URL` unset, the second variant
makes no outbound call. -/
theorem c2_witness :
    (proxyHandlerV2 cfgNoBase reqGet bkOk).call = none :=
  ((c2_config_checks_amended cfgNoBase reqGet bkOk).1 (by decide)).1

/-- C3 counterexample: in the first handler variant, a failing upstream
call yields status 500 with error label "Internal proxy error" — not the
claimed 502 ConnectionError — so the claim fails for that handler. -/
theorem c3_counterexample :
    (proxyHandlerV1 cfgFull reqGet bkBoom).result = HandlerResult.response
      { status := 500,
        headers := [("Content-Type", "application/json")],
        body := none,
        jsonBody := some
          { statusCode := none, error := "Internal proxy error",
            message := "boom", detail := none,
            stack := some "bstack", backendUrl := some "http://b/" } } ∧
    (500 : Nat) ≠ 502 := by
  exact ⟨by decide, by decide⟩

/-- C3 (amended): when the upstream call throws, the second handler
variant returns 502 with error label "Proxy Connection Error", the
failure message and the attempted upstream URL; the first variant and
the TypeScript variant instead return 500 with error label
"Internal proxy error", carrying the failure message, the stack and the
attempted upstream URL. -/
theorem c3_upstream_failure_amended :
    ∀ (cfg : ProxyConfig) (req : InboundRequest) (backend : Backend)
      (out : OutboundRequest) (err : JsError),
      ((proxyHandlerV2 cfg req backend).call = some out →
        backend out = Except.error err →
        (proxyHandlerV2 cfg req backend).result = HandlerResult.response
          { status := 502,
            headers := [("Content-Type", "application/json")],
            body := none,
            jsonBody := some
              { statusCode := some 502, error := "Proxy Connection Error",
                message := err.message, detail := none, stack := none,
                backendUrl := some out.url } }) ∧
      ((proxyHandlerV1 cfg req backend).call = some out →
        backend out = Except.error err →
        (proxyHandlerV1 cfg req backend).result = HandlerResult.response
          { status := 500,
            headers := [("Content-Type", "application/json")],
            body := none,
            jsonBody := some
              { statusCode := none, error := "Internal proxy error",
                message := err.message, detail := none,
                stack := some err.stack, backendUrl := some out.url } }) ∧
      ((proxyHandlerTS cfg req backend).call = some out →
        backend out = Except.error err →
        (proxyHandlerTS cfg req backend).result = HandlerResult.response
          { status := 500,
            headers := [("Content-Type", "application/json")],
            body := none,
            jsonBody := some
              { statusCode := none, error := "Internal proxy error",
                message := err.message, detail := none,
                stack := some err.stack, backendUrl := some out.url } }) := by
  intro cfg req backend out err
  refine ⟨fun h hb => ?_, fun h hb => ?_, fun h hb => ?_⟩
  · obtain ⟨_, _, body, _, _, htr⟩ := proxyHandlerV2_call h
    rw [htr]
    exact fetchStage_error hb
  · obtain ⟨_, body, _, _, htr⟩ := proxyHandlerV1_call h
    rw [htr]
    exact fetchStage_error hb
  · obtain ⟨body, _, _, htr⟩ := proxyHandlerTS_call h
    rw [htr]
    exact fetchStage_error hb

/-- C3 witness: on a concrete failing upstream call, the second variant
answers 502 with the message and the attempted URL. -/
theorem c3_witness :
    (proxyHandlerV2 cfgFull reqGet bkBoom).result = HandlerResult.response
      { status := 502,
        headers := [("Content-Type", "application/json")],
        body := none,
        jsonBody := some
          { statusCode := some 502, error := "Proxy Connection Error",
            message := "boom", detail := none, stack := none,
            backendUrl := some "http://b/" } } :=
  (c3_upstream_failure_amended cfgFull reqGet bkBoom outV2Get
    { message := "boom", stack := "bstack" }).1 (by decide) rfl

/-- C9 counterexample: a failure while reading the inbound request body
of a POST propagates out of the second handler variant as an unhandled
exception (the `await request.text()` sits outside the `try` block), so
the caller does not receive a structured response. -/
theorem c9_counterexample :
    (proxyHandlerV2 cfgFull reqBodyFail bkOk).result =
      HandlerResult.thrown { message := "read aborted", stack := "readstack" } ∧
    ((proxyHandlerV2 cfgFull reqBodyFail bkOk).result).isStructured = false := by
  exact ⟨by decide, by decide⟩

/-- C9 (amended): every handler variant terminates with a structured
response for every GET or HEAD request, and for every other request
whose inbound body read succeeds; a failing body read instead
propagates as an unhandled exception. -/
theorem c9_structured_amended :
    ∀ (cfg : ProxyConfig) (req : InboundRequest) (backend : Backend),
      (req.method = "GET" ∨ req.method = "HEAD" ∨ req.bodyText.isOk = true) →
      ((proxyHandlerV1 cfg req backend).result).isStructured = true ∧
      ((proxyHandlerV2 cfg req backend).result).isStructured = true ∧
      ((proxyHandlerTS cfg req backend).result).isStructured = true :=
  fun _ _ backend h =>
    ⟨proxyHandlerV1_structured backend h, proxyHandlerV2_structured backend h,
      proxyHandlerTS_structured backend h⟩

/-- C9 witness: a concrete GET request produces a structured response in
the first variant. -/
theorem c9_witness :
    ((proxyHandlerV1 cfgFull reqGet bkOk).result).isStructured = true :=
  (c9_structured_amended cfgFull reqGet bkOk (Or.inl rfl)).1

/-- C4 counterexample: the first handler variant copies no inbound
headers at all — a non-host inbound `authorization` header is absent
from its outbound header set — so "every inbound header is copied except
the denylist" fails for that handler. -/
theorem c4_counterexample :
    (proxyHandlerV1 cfgFull reqGet bkOk).call = some outV1Get ∧
    ("authorization", "t") ∈ headersEntries reqGet.headers ∧
    lowerStr "authorization" ≠ "host" ∧
    List.lookup "authorization" outV1Get.headers = none := by
  exact ⟨by decide, by decide, by decide, by decide⟩

/-- C4 (amended): no outbound request of any variant ever carries a
header whose lowercase name is `host`.  The second variant moreover
forwards every non-host inbound header name (with the inbound value
verbatim when the inbound names are distinct and the name is not the
injected `x-functions-key`).  The first variant forwards no inbound
headers: its outbound header set is exactly the fixed content-type and
function-key pair. -/
theorem c4_headers_amended :
    ∀ (cfg : ProxyConfig) (req : InboundRequest) (backend : Backend)
      (out : OutboundRequest),
      (((proxyHandlerV1 cfg req backend).call = some out ∨
        (proxyHandlerV2 cfg req backend).call = some out ∨
        (proxyHandlerTS cfg req backend).call = some out) →
        ∀ k v, (k, v) ∈ out.headers → lowerStr k ≠ "host") ∧
      ((proxyHandlerV2 cfg req backend).call = some out →
        ∀ k v, (k, v) ∈ headersEntries req.headers → lowerStr k ≠ "host" →
          (∃ v2, List.lookup k out.headers = some v2) ∧
          (((headersEntries req.headers).map Prod.fst).Nodup →
            k ≠ "x-functions-key" → List.lookup k out.headers = some v)) ∧
      ((proxyHandlerV1 cfg req backend).call = some out →
        out.headers = [("Content-Type", "application/json"),
          ("x-functions-key", cfg.xFunctionsKey.getD "")]) := by
  intro cfg req backend out
  have hfixedmem : ∀ k v (key : String),
      (k, v) ∈ [("Content-Type", "application/json"), ("x-functions-key", key)] →
      lowerStr k ≠ "host" := by
    intro k v key hmem
    rcases List.mem_cons.mp hmem with h1 | h1
    · have hk : k = "Content-Type" := congrArg Prod.fst h1
      rw [hk]
      decide
    · rcases List.mem_singleton.mp h1 with h2
      have hk : k = "x-functions-key" := congrArg Prod.fst h2
      rw [hk]
      decide
  refine ⟨?_, ?_, ?_⟩
  · intro hcall k v hmem
    rcases hcall with h | h | h
    · obtain ⟨_, body, _, hout, _⟩ := proxyHandlerV1_call h
      subst hout
      exact hfixedmem k v _ hmem
    · obtain ⟨_, _, body, _, hout, _⟩ := proxyHandlerV2_call h
      subst hout
      dsimp only at hmem
      rcases mem_setKey hmem with h1 | h1
      · have hk : k = "x-functions-key" := congrArg Prod.fst h1
        rw [hk]
        decide
      · obtain ⟨hmem2, _⟩ := h1
        unfold copyHeaders at hmem2
        rcases mem_foldl_copyStep hmem2 with hacc | hes
        · cases hacc
        · exact hes.2
    · obtain ⟨body, _, hout, _⟩ := proxyHandlerTS_call h
      subst hout
      exact hfixedmem k v _ hmem
  · intro h k v hmem hhostk
    obtain ⟨_, _, body, _, hout, _⟩ := proxyHandlerV2_call h
    subst hout
    dsimp only
    constructor
    · by_cases hk : k = "x-functions-key"
      · subst hk
        exact ⟨_, lookup_setKey_self _ _ _⟩
      · rw [lookup_setKey_ne _ _ hk]
        exact lookup_copyHeaders_present hmem hhostk
    · intro hnd hkx
      rw [lookup_setKey_ne _ _ hkx]
      exact lookup_copyHeaders_nodup hmem hnd hhostk
  · intro h
    obtain ⟨_, body, _, hout, _⟩ := proxyHandlerV1_call h
    subst hout
    rfl

/-- C4 witness: the second variant forwards the inbound `authorization`
header with its value. -/
theorem c4_witness :
    List.lookup "authorization" outV2Get.headers = some "t" :=
  (((c4_headers_amended cfgFull reqGet bkOk outV2Get).2.1 (by decide)
    "authorization" "t" (by decide) (by decide)).2 (by decide) (by decide))

/-- C8 counterexample: the second handler variant applies no
`application/json` default — with no inbound content-type, its outbound
header set contains no content-type entry at all. -/
theorem c8_counterexample :
    (proxyHandlerV2 cfgFull reqGet bkOk).call = some outV2Get ∧
    (∀ ct, ("content-type", ct) ∉ headersEntries reqGet.headers) ∧
    outV2Get.headers = [("authorization", "t"), ("x-functions-key", "k")] ∧
    List.lookup "content-type" outV2Get.headers = none ∧
    List.lookup "Content-Type" outV2Get.headers = none := by
  refine ⟨by decide, ?_, by decide, by decide, by decide⟩
  intro ct hmem
  rcases List.mem_cons.mp hmem with h1 | h1
  · have hk : ("content-type" : String) = "authorization" := congrArg Prod.fst h1
    exact absurd hk (by decide)
  · rcases List.mem_singleton.mp h1 with h2
    have hk : ("content-type" : String) = "x-functions-key" := congrArg Prod.fst h2
    exact absurd hk (by decide)

/-- C8 (amended): in the first variant the outbound content-type is
always `application/json`, regardless of what the inbound request
carried; in the second variant an inbound content-type is forwarded
verbatim (under its lowercase name), and when the inbound request
carries none, the outbound header set has no content-type entry — there
is no `application/json` default. -/
theorem c8_content_type_amended :
    ∀ (cfg : ProxyConfig) (req : InboundRequest) (backend : Backend)
      (out : OutboundRequest),
      ((proxyHandlerV1 cfg req backend).call = some out →
        List.lookup "Content-Type" out.headers = some "application/json") ∧
      ((proxyHandlerV2 cfg req backend).call = some out →
        (∀ ct, ("content-type", ct) ∈ headersEntries req.headers →
          ((headersEntries req.headers).map Prod.fst).Nodup →
          List.lookup "content-type" out.headers = some ct) ∧
        ((∀ ct, ("content-type", ct) ∉ headersEntries req.headers) →
          List.lookup "content-type" out.headers = none)) := by
  intro cfg req backend out
  constructor
  · intro h
    obtain ⟨_, body, _, hout, _⟩ := proxyHandlerV1_call h
    subst hout
    rfl
  · intro h
    obtain ⟨_, _, body, _, hout, _⟩ := proxyHandlerV2_call h
    subst hout
    dsimp only
    constructor
    · intro ct hmem hnd
      rw [lookup_setKey_ne _ _ (by decide)]
      exact lookup_copyHeaders_nodup hmem hnd (by decide)
    · intro habs
      rw [lookup_setKey_ne _ _ (by decide)]
      exact lookup_copyHeaders_none habs

/-- C8 witness: an inbound `Content-Type: text/xml` is forwarded by the
second variant as `content-type: text/xml`, not replaced by the default. -/
theorem c8_witness :
    List.lookup "content-type" outV2Post.headers = some "text/xml" :=
  ((c8_content_type_amended cfgFull reqPost bkOk outV2Post).2 (by decide)).1
    "text/xml" (by decide) (by decide)

/-- C6 counterexample: with a present-but-empty query object the
constructed URL carries a trailing `?`, so "an empty query map appends
nothing" fails. -/
theorem c6_counterexample :
    (proxyHandlerV2 cfgFull reqEmptyQuery bkOk).call = some outV2EmptyQuery ∧
    outV2EmptyQuery.url = "http://b/?" ∧
    "http://b/?" ≠ "http://b" ++ "/" ++ "" := by
  exact ⟨by decide, by decide, by decide⟩

/-- C6 (amended): the constructed outbound URL is
`backendBaseUrl ++ "/" ++ path` when the query object is absent, and
`backendBaseUrl ++ "/" ++ path ++ "?" ++ serialized query` whenever the
query object is present — including when it is empty, which yields a
trailing `?`.  Decoding the serialized query string reproduces every
key/value pair exactly, and the second handler variant's outbound URL is
exactly this construction. -/
theorem c6_url_amended :
    ∀ (base path : String) (ps : List (String × String)),
      buildBackendUrl base path none = base ++ "/" ++ path ∧
      buildBackendUrl base path (some ps) =
        base ++ "/" ++ path ++ "?" ++ queryToString ps ∧
      decodeQuery (queryToString ps) = some ps ∧
      ∀ (cfg : ProxyConfig) (req : InboundRequest) (backend : Backend)
        (out : OutboundRequest),
        (proxyHandlerV2 cfg req backend).call = some out →
        out.url = buildBackendUrl (cfg.backendBaseUrl.getD "")
          (req.path.getD "") req.query := by
  intro base path ps
  refine ⟨?_, ?_, decodeQuery_queryToString ps, ?_⟩
  · unfold buildBackendUrl
    simp
  · unfold buildBackendUrl
    simp [String.append_assoc]
  · intro cfg req backend out h
    obtain ⟨_, _, body, _, hout, _⟩ := proxyHandlerV2_call h
    subst hout
    rfl

/-- C6 witness: the second variant's outbound URL for a root request
with a present-but-empty query object matches the construction. -/
theorem c6_witness :
    outV2EmptyQuery.url =
      buildBackendUrl "http://b" "" (some []) :=
  (c6_url_amended "http://b" "" []).2.2.2 cfgFull reqEmptyQuery bkOk
    outV2EmptyQuery (by decide)

end Proxy
